import Mathlib

/-!
Shallow embedding of virter's VM lifecycle and provisioning engine
(`internal/virter/vm.go`) for checking the natural-language specification.

The libvirt backend, template renderer, ISO packager, SSH transport, rsync
copier and docker client are external collaborators.  They are modelled by an
environment record `Env σ` of stateful response functions, and every program is
interpreted in the monad `Prog σ α := σ → EvTrace → Except GoErr α × σ × EvTrace`
which threads the backend state and records the sequence of external calls in
an append-only trace.  Pure Go functions become pure Lean functions; Go's
`error` values become the inductive `GoErr` (with `GoErr.wrap` playing the role
of `fmt.Errorf("...: %w", err)`).
-/

/-- Backend ("libvirt") error classification.  The Go code distinguishes the
"no domain" and "no storage volume" error codes from all other backend
failures. -/
inductive LVErr : Type where
  | errNoDomain : LVErr
  | errNoStorageVol : LVErr
  | otherErr : String → LVErr
deriving DecidableEq, Repr

/-- A Go `error` value as produced by the embedded code: a raw backend error,
a `fmt.Errorf("msg: %w", inner)` wrapping, or a plain `fmt.Errorf("msg")`. -/
inductive GoErr : Type where
  | lv : LVErr → GoErr
  | wrap : String → GoErr → GoErr
  | msg : String → GoErr
deriving DecidableEq, Repr

/-- Does the rendered error text contain the given message?  A wrapped error's
text contains the texts of all inner errors, so we traverse the wrappers. -/
def GoErr.hasMsg : GoErr → String → Bool
  | .lv _, _ => false
  | .msg s, needle => s == needle
  | .wrap s inner, needle => s == needle || inner.hasMsg needle

/-- A libvirt domain handle: `libvirt.Domain` carries the domain name and the
runtime ID used for lifecycle-event matching. -/
structure Domain where
  name : String
  id : Int
deriving DecidableEq, Repr

/-- A domain snapshot handle, identified by its domain's name and its own name. -/
structure Snap where
  dom : String
  snap : String
deriving DecidableEq, Repr

/-- A lifecycle event from the backend event stream: the domain it concerns and
the event kind (`event.Event` in go-libvirt). -/
structure DomainEvent where
  dom : Domain
  event : Int
deriving DecidableEq, Repr

/-- `libvirt.DomainEventStopped`. -/
def domainEventStopped : Int := 5

/-- `VMConfig` from the Go code: the immutable VM descriptor. -/
structure VMConfig where
  imageName : String
  vmName : String
  vmID : Nat
  memoryKiB : Nat
  vcpus : Nat
  sshPublicKeys : List String
deriving DecidableEq, Repr

/-- `ProvisionShellStep`: a shell script and its environment mapping. -/
structure ProvisionShellStep where
  script : String
  env : List (String × String)
deriving DecidableEq, Repr

/-- `ProvisionRsyncStep`: glob source pattern and remote destination. -/
structure ProvisionRsyncStep where
  source : String
  dest : String
deriving DecidableEq, Repr

/-- Typed parameter bag handed to the external template renderer, one
constructor per recognized template kind (spec section 4.2). -/
inductive TemplateData : Type where
  | metaBag : String → TemplateData
  | userBag : String → List String → TemplateData
  | ciVolumeBag : String → TemplateData
  | vmVolumeBag : String → String → TemplateData
  | scratchVolumeBag : String → TemplateData
  | vmBag : String → String → String → Nat → Nat → TemplateData
deriving DecidableEq, Repr

/-- One recorded external call.  The trace of a run is the list of these in
issue order. -/
inductive Ev : Type where
  | poolLookup : String → Ev
  | volLookup : String → Ev
  | volGetPath : String → Ev
  | volCreate : String → Ev
  | volUpload : String → Ev
  | volDelete : String → Ev
  | domainLookup : String → Ev
  | domainDefine : String → Ev
  | domainCreate : Domain → Ev
  | domainDestroy : Domain → Ev
  | domainUndefine : Domain → Ev
  | domainIsActive : Domain → Ev
  | domainIsPersistent : Domain → Ev
  | listSnapshots : Domain → Ev
  | snapshotDelete : Snap → Ev
  | domainShutdown : Domain → Ev
  | lifecycleEvents : Ev
  | afterTimer : Ev
  | networkLookup : String → Ev
  | addDHCP : String → Nat → Ev
  | rmDHCP : Domain → Ev
  | getMACev : Domain → Ev
  | findIPsEv : String → Ev
  | waitPort : String → Ev
  | runSSH : String → Ev
  | rsyncCopy : String → Ev
  | dockerRunEv : List String → Ev
deriving DecidableEq, Repr

abbrev EvTrace := List Ev

/-- The interpretation monad: backend state in, result, new state and the
trace of external calls out.  The trace is append-only. -/
def Prog (σ : Type) (α : Type) : Type := σ → EvTrace → Except GoErr α × σ × EvTrace

def Prog.pure (a : α) : Prog σ α := fun s t => (.ok a, s, t)

def Prog.bind (m : Prog σ α) (f : α → Prog σ β) : Prog σ β := fun s t =>
  match m s t with
  | (.ok a, s', t') => f a s' t'
  | (.error e, s', t') => (.error e, s', t')

instance : Monad (Prog σ) where
  pure := Prog.pure
  bind := Prog.bind

theorem prog_bind_def (m : Prog σ α) (f : α → Prog σ β) :
    m >>= f = Prog.bind m f := rfl

theorem prog_pure_def (a : α) : (pure a : Prog σ α) = Prog.pure a := rfl

theorem prog_pure_bind (a : α) (f : α → Prog σ β) :
    Prog.bind (Prog.pure a) f = f a := rfl

/-- Record a backend call and return its raw `Except LVErr` result (used where
the Go code inspects the error value itself). -/
def lvCall (ev : Ev) (f : σ → Except LVErr α × σ) : Prog σ (Except LVErr α) :=
  fun s t => let p := f s; (.ok p.1, p.2, t ++ [ev])

/-- Record a backend call; on failure wrap the error with a context message,
mirroring `if err != nil { return fmt.Errorf("msg: %w", err) }`. -/
def lvWrap (ev : Ev) (msgStr : String) (f : σ → Except LVErr α × σ) : Prog σ α :=
  fun s t =>
    let p := f s
    (match p.1 with
     | .ok a => .ok a
     | .error e => .error (.wrap msgStr (.lv e)), p.2, t ++ [ev])

/-- Record an external call whose interface already yields a Go error. -/
def goCall (ev : Ev) (f : σ → Except GoErr α × σ) : Prog σ α :=
  fun s t => let p := f s; (p.1, p.2, t ++ [ev])

/-- Record an external call that reports its failure as a value (the per-target
provisioning tasks hand their error to `errgroup` instead of aborting). -/
def taskCall (ev : Ev) (r : Option GoErr) : Prog σ (Option GoErr) :=
  fun s t => (.ok r, s, t ++ [ev])

/-- Record an event with no result (the `AfterNotifier.After` timer start). -/
def logOnly (ev : Ev) : Prog σ Unit := fun s t => (.ok (), s, t ++ [ev])

/-- Fail with a Go error. -/
def throwE (e : GoErr) : Prog σ α := fun s t => (.error e, s, t)

/-- Lift a pure fallible computation (template rendering, key parsing). -/
def liftE (r : Except GoErr α) : Prog σ α := fun s t => (r, s, t)

/-- `return x, fmt.Errorf("msg: %w", err)` on the raw result of an inspected
backend call. -/
def orWrap (msgStr : String) (r : Except LVErr α) : Prog σ α :=
  match r with
  | .ok a => Prog.pure a
  | .error e => throwE (.wrap msgStr (.lv e))

/-- Wrap any error produced by a subcomputation with a context message. -/
def wrapRes (msgStr : String) (m : Prog σ α) : Prog σ α := fun s t =>
  match m s t with
  | (.ok a, s', t') => (.ok a, s', t')
  | (.error e, s', t') => (.error (.wrap msgStr e), s', t')

/-- The external-collaborator boundary (spec section 6): every backend,
renderer and transport operation consumed by the embedded code, as stateful
response functions over an abstract backend state `σ`. -/
structure Env (σ : Type) where
  poolLookup : σ → String → Except LVErr Unit × σ
  volLookup : σ → String → String → Except LVErr Unit × σ
  volGetPath : σ → String → Except LVErr String × σ
  volCreate : σ → String → String → Except LVErr String × σ
  volUpload : σ → String → Except LVErr Unit × σ
  volDelete : σ → String → Except LVErr Unit × σ
  domainLookup : σ → String → Except LVErr Domain × σ
  domainDefine : σ → String → Except LVErr Domain × σ
  domainCreate : σ → Domain → Except LVErr Unit × σ
  domainIsActive : σ → Domain → Except LVErr Int × σ
  domainIsPersistent : σ → Domain → Except LVErr Int × σ
  domainDestroy : σ → Domain → Except LVErr Unit × σ
  domainUndefine : σ → Domain → Except LVErr Unit × σ
  listSnapshots : σ → Domain → Except LVErr (List Snap) × σ
  snapshotDelete : σ → Snap → Except LVErr Unit × σ
  domainShutdown : σ → Domain → Except LVErr Unit × σ
  lifecycleEvents : σ → Except LVErr (List DomainEvent) × σ
  networkLookup : σ → String → Except LVErr Unit × σ
  addDHCP : σ → String → Nat → Except GoErr String × σ
  rmDHCP : σ → Domain → Except GoErr Unit × σ
  getMAC : σ → Domain → Except GoErr String × σ
  findIPs : σ → String → String → Except GoErr (List String) × σ
  render : String → TemplateData → Except GoErr String
  parsePrivateKey : String → Except GoErr Unit
  runSSH : String → String → Option GoErr
  glob : String → Except GoErr (List String)

/-- The `Virter` receiver: the backend connection plus the configured storage
pool and network names. -/
structure Virter (σ : Type) where
  env : Env σ
  storagePoolName : String
  networkName : String

/-- `g.Generate(files)`: the external ISO packager. -/
abbrev ISOGenerator := List (String × String) → Except GoErr String

/-- `waiter.WaitPort(ip, "ssh")`. -/
abbrev PortWaiter := String → String → Option GoErr

/-- The external container-execution client, invoked with the resolved
addresses. -/
abbrev DockerClient := List String → Option GoErr

/-- `copier.Copy(ip, files, dest)`. -/
abbrev NetworkCopier := String → List String → String → Option GoErr

/-- `AfterNotifier`: only its `After` call is observable; the deadline itself
is modelled by the finite list of events delivered before it elapses. -/
abbrev AfterNotifier := Unit

/-- Modelled from the spec: `hasErrorCode` (the classification of backend
errors into the tagged set used by the teardown code) is not under `src/`;
spec sections 6 and 9 state that "not found" is a distinguished condition for
domain and volume lookups, tested against a specific error code.  Note that,
as in Go, a `nil` error never has an error code. -/
def hasErrorCode (r : Except LVErr α) (c : LVErr) : Bool :=
  match r with
  | .error e => e == c
  | .ok _ => false

def hexDigit (n : Nat) : Char :=
  if n < 10 then Char.ofNat (48 + n) else Char.ofNat (87 + n)

def hexByte (n : Nat) : String :=
  String.mk [hexDigit (n / 16 % 16), hexDigit (n % 16)]

/-- Modelled from the spec: `qemuMAC` (deriveMAC, section 4.1) is not under
`src/`; it derives a locally-administered MAC with a fixed vendor-neutral
prefix and the 24-bit VM ID as the trailing three bytes, big-endian. -/
def qemuMAC (vmID : Nat) : String :=
  "52:54:00:" ++ hexByte (vmID / 65536 % 256) ++ ":" ++ hexByte (vmID / 256 % 256)
    ++ ":" ++ hexByte (vmID % 256)

def templateMetaData : String := "meta-data"
def templateUserData : String := "user-data"
def templateCIData : String := "volume-cidata.xml"
def templateVMVolume : String := "volume-vm.xml"
def templateScratchVolume : String := "volume-scratch.xml"
def templateVM : String := "vm.xml"

def ciDataVolumeName (vmName : String) : String := vmName ++ "-cidata"

def scratchVolumeName (vmName : String) : String := vmName ++ "-scratch"

def metaData (v : Virter σ) (vmName : String) : Except GoErr String :=
  v.env.render templateMetaData (.metaBag vmName)

def userData (v : Virter σ) (vmName : String) (sshPublicKeys : List String) :
    Except GoErr String :=
  v.env.render templateUserData (.userBag vmName sshPublicKeys)

def ciDataVolumeXML (v : Virter σ) (name : String) : Except GoErr String :=
  v.env.render templateCIData (.ciVolumeBag name)

def vmVolumeXML (v : Virter σ) (name : String) (backingPath : String) :
    Except GoErr String :=
  v.env.render templateVMVolume (.vmVolumeBag name backingPath)

def scratchVolumeXML (v : Virter σ) (name : String) : Except GoErr String :=
  v.env.render templateScratchVolume (.scratchVolumeBag name)

def vmXML (v : Virter σ) (poolName vmName mac : String) (memKiB vcpus : Nat) :
    Except GoErr String :=
  v.env.render templateVM (.vmBag poolName vmName mac memKiB vcpus)

/-- `StoragePoolLookupByName(v.storagePoolName)` wrapped with the shared
"could not get storage pool" context.  The pool handle is identified by the
looked-up name. -/
def lookupPool (v : Virter σ) : Prog σ String := do
  let _ ← lvWrap (.poolLookup v.storagePoolName) "could not get storage pool"
      (fun s => v.env.poolLookup s v.storagePoolName)
  pure v.storagePoolName

def createVMVolume (v : Virter σ) (sp : String) (vmConfig : VMConfig) :
    Prog σ Unit := do
  let imageName := vmConfig.imageName
  let vmName := vmConfig.vmName
  let _ ← lvWrap (.volLookup imageName) "could not get backing image volume"
      (fun s => v.env.volLookup s sp imageName)
  let backingVolume := imageName
  let backingPath ← lvWrap (.volGetPath backingVolume) "could not get backing image path"
      (fun s => v.env.volGetPath s backingVolume)
  let xml ← liftE (vmVolumeXML v vmName backingPath)
  let _ ← lvWrap (.volCreate xml) "could not create VM boot volume"
      (fun s => v.env.volCreate s sp xml)
  pure ()

def createCIData (v : Virter σ) (sp : String) (g : ISOGenerator)
    (vmConfig : VMConfig) : Prog σ Unit := do
  let vmName := vmConfig.vmName
  let sshPublicKeys := vmConfig.sshPublicKeys
  let metaDataStr ← liftE (metaData v vmName)
  let userDataStr ← liftE (userData v vmName sshPublicKeys)
  let files := [("meta-data", metaDataStr), ("user-data", userDataStr)]
  let _ciData ← liftE (match g files with
    | .ok b => .ok b
    | .error e => .error (GoErr.wrap "failed to generate ISO" e))
  let xml ← liftE (ciDataVolumeXML v (ciDataVolumeName vmName))
  let sv ← lvWrap (.volCreate xml) "could not create cloud-init volume"
      (fun s => v.env.volCreate s sp xml)
  lvWrap (.volUpload sv) "failed to transfer cloud-init data to libvirt"
      (fun s => v.env.volUpload s sv)

def createScratchVolume (v : Virter σ) (sp : String) (vmConfig : VMConfig) :
    Prog σ Unit := do
  let vmName := vmConfig.vmName
  let xml ← liftE (scratchVolumeXML v (scratchVolumeName vmName))
  let _ ← lvWrap (.volCreate xml) "could not create scratch volume"
      (fun s => v.env.volCreate s sp xml)
  pure ()

def createVM (v : Virter σ) (sp : String) (vmConfig : VMConfig) :
    Prog σ String := do
  let vmName := vmConfig.vmName
  let vmID := vmConfig.vmID
  let memKiB := vmConfig.memoryKiB
  let vcpus := vmConfig.vcpus
  let mac := qemuMAC vmID
  let xml ← liftE (vmXML v sp vmName mac memKiB vcpus)
  let d ← lvWrap (.domainDefine xml) "could not define domain"
      (fun s => v.env.domainDefine s xml)
  let ip ← goCall (.addDHCP mac vmID) (fun s => v.env.addDHCP s mac vmID)
  let _ ← lvWrap (.domainCreate d) "could create create (start) domain"
      (fun s => v.env.domainCreate s d)
  pure ip

/-- `WaitPort(ip, port)` with the propagation from `VMRun`. -/
def waitPortCall (waiter : PortWaiter) (ip port : String) : Prog σ Unit :=
  fun s t =>
    (match waiter ip port with
     | some e => .error (.wrap "unable to connect to SSH port" e)
     | none => .ok (), s, t ++ [.waitPort ip])

/-- `VMRun` starts a VM. -/
def VMRun (v : Virter σ) (g : ISOGenerator) (waiter : PortWaiter)
    (vmConfig : VMConfig) (waitSSH : Bool) : Prog σ Unit := do
  let sp ← lookupPool v
  createVMVolume v sp vmConfig
  createCIData v sp g vmConfig
  createScratchVolume v sp vmConfig
  let ip ← createVM v sp vmConfig
  if waitSSH then
    waitPortCall waiter ip "ssh"
  else
    pure ()

def rmSnapshotsLoop (v : Virter σ) : List Snap → Prog σ Unit
  | [] => Prog.pure ()
  | sn :: rest => do
    let _ ← lvWrap (.snapshotDelete sn) "could not delete snapshot"
        (fun s => v.env.snapshotDelete s sn)
    rmSnapshotsLoop v rest

def rmSnapshots (v : Virter σ) (domain : Domain) : Prog σ Unit := do
  let snapshots ← lvWrap (.listSnapshots domain) "could not list snapshots"
      (fun s => v.env.listSnapshots s domain)
  rmSnapshotsLoop v snapshots

/-- `rmVolume`: the storage-volume handle returned by a successful
lookup-by-name carries that name, so the handle is modelled by the name and
the environment decides only success or failure of the lookup. -/
def rmVolume (v : Virter σ) (sp : String) (volumeName : String)
    (debugName : String) : Prog σ Unit := do
  let r ← lvCall (.volLookup volumeName) (fun s => v.env.volLookup s sp volumeName)
  if hasErrorCode r LVErr.errNoStorageVol = false then do
    let _volume ← orWrap ("could not get " ++ debugName ++ " volume") r
    lvWrap (.volDelete volumeName) ("could not delete " ++ debugName ++ " volume")
        (fun s => v.env.volDelete s volumeName)
  else
    pure ()

def vmRmExceptBoot (v : Virter σ) (sp : String) (vmName : String) :
    Prog σ Unit := do
  let r ← lvCall (.domainLookup vmName) (fun s => v.env.domainLookup s vmName)
  if hasErrorCode r LVErr.errNoDomain = false then do
    let domain ← orWrap "could not get domain" r
    rmSnapshots v domain
    let active ← lvWrap (.domainIsActive domain) "could not check if domain is active"
        (fun s => v.env.domainIsActive s domain)
    let persistent ← lvWrap (.domainIsPersistent domain)
        "could not check if domain is persistent"
        (fun s => v.env.domainIsPersistent s domain)
    let _ ← goCall (.rmDHCP domain) (fun s => v.env.rmDHCP s domain)
    if active ≠ 0 then
      lvWrap (.domainDestroy domain) "could not destroy domain"
          (fun s => v.env.domainDestroy s domain)
    else
      pure ()
    if persistent ≠ 0 then
      lvWrap (.domainUndefine domain) "could not undefine domain"
          (fun s => v.env.domainUndefine s domain)
    else
      pure ()
  else
    pure ()
  rmVolume v sp (scratchVolumeName vmName) "scratch"
  rmVolume v sp (ciDataVolumeName vmName) "cloud-init"

/-- `VMRm` removes a VM. -/
def VMRm (v : Virter σ) (vmName : String) : Prog σ Unit := do
  let sp ← lookupPool v
  vmRmExceptBoot v sp vmName
  rmVolume v sp vmName "boot"

/-- The `select` loop of `vmShutdown` over the events delivered before the
deadline elapses: the first event whose domain ID matches with the "stopped"
kind ends the wait; events for other domains are skipped; exhausting the
deliveries means the deadline fired first. -/
def waitStopped (domain : Domain) : List DomainEvent → Except GoErr Unit
  | [] => .error (.msg "timed out waiting for domain to stop")
  | ev :: rest =>
    if ev.dom.id == domain.id && ev.event == domainEventStopped then
      .ok ()
    else
      waitStopped domain rest

def vmShutdown (v : Virter σ) (_afterNotifier : AfterNotifier)
    (_shutdownTimeout : Nat) (domain : Domain) : Prog σ Unit := do
  let events ← lvWrap .lifecycleEvents "could not start waiting for events"
      (fun s => v.env.lifecycleEvents s)
  let active ← lvWrap (.domainIsActive domain) "could not check if domain is active"
      (fun s => v.env.domainIsActive s domain)
  if active ≠ 0 then
    lvWrap (.domainShutdown domain) "could not shut down domain"
        (fun s => v.env.domainShutdown s domain)
  else
    pure ()
  logOnly .afterTimer
  if active ≠ 0 then
    liftE (waitStopped domain events)
  else
    pure ()

/-- `VMCommit` commits a VM to an image. -/
def VMCommit (v : Virter σ) (afterNotifier : AfterNotifier) (vmName : String)
    (shutdown : Bool) (shutdownTimeout : Nat) : Prog σ Unit := do
  let domain ← lvWrap (.domainLookup vmName) "could not get domain"
      (fun s => v.env.domainLookup s vmName)
  if shutdown then
    vmShutdown v afterNotifier shutdownTimeout domain
  else do
    let active ← lvWrap (.domainIsActive domain) "could not check if domain is active"
        (fun s => v.env.domainIsActive s domain)
    if active ≠ 0 then
      throwE (.msg "cannot commit a running VM")
    else
      pure ()
  let sp ← lookupPool v
  vmRmExceptBoot v sp vmName

/-- Modelled from the spec: `getMAC` and `findIPs` (the address-resolution
half of the Network/IP Coordinator, section 4.3) are not under `src/`; they
read the MAC off the domain and query the network's DHCP leases for it.  Both
are modelled as atomic traced environment calls. -/
def findVMIP (v : Virter σ) (network : String) (domain : Domain) :
    Prog σ String := do
  let mac ← goCall (.getMACev domain) (fun s => v.env.getMAC s domain)
  let ips ← goCall (.findIPsEv mac) (fun s => v.env.findIPs s network mac)
  match ips with
  | [] => throwE (.msg "no IP found for domain")
  | ip :: _ => pure ip

def getIPsLoop (v : Virter σ) (network : String) : List String → Prog σ (List String)
  | [] => Prog.pure []
  | vmName :: rest => do
    let domain ← lvWrap (.domainLookup vmName)
        ("could not get domain '" ++ vmName ++ "'")
        (fun s => v.env.domainLookup s vmName)
    let active ← lvWrap (.domainIsActive domain)
        ("could not check if domain '" ++ vmName ++ "' is active")
        (fun s => v.env.domainIsActive s domain)
    if active = 0 then
      throwE (.msg ("cannot exec against VM '" ++ vmName ++ "' that is not running"))
    else do
      let ip ← wrapRes ("could not find IP for VM '" ++ vmName ++ "'")
          (findVMIP v network domain)
      let rest' ← getIPsLoop v network rest
      pure (ip :: rest')

def getIPs (v : Virter σ) (vmNames : List String) : Prog σ (List String) := do
  let _ ← lvWrap (.networkLookup v.networkName) "could not get network"
      (fun s => v.env.networkLookup s v.networkName)
  getIPsLoop v v.networkName vmNames

/-- The SSH client configuration built from the parsed key. -/
structure SSHClientConfig where
  user : String
deriving DecidableEq, Repr

def getSSHClientConfig (v : Virter σ) (vmNames : List String)
    (sshPrivateKey : String) : Prog σ (SSHClientConfig × List String) := do
  let ips ← getIPs v vmNames
  let _signer ← liftE (v.env.parsePrivateKey sshPrivateKey)
  pure ({ user := "root" }, ips)

/-- `errgroup.Group` without a derived context: every launched task is waited
for, and `Wait` reports the first error recorded.  The arrival order of the
task results is modelled by the launch order. -/
def errgroupWait : List (Prog σ (Option GoErr)) → Prog σ (Option GoErr)
  | [] => Prog.pure none
  | task :: rest => do
    let r ← task
    let r2 ← errgroupWait rest
    pure (match r with
      | some e => some e
      | none => r2)

/-- `runSSHCommand`: the whole remote session (dial, env-blob injection,
stream logging, wait) is one external transport interaction, modelled as an
atomic traced call whose outcome the environment decides. -/
def runSSHCommand (v : Virter σ) (ip : String) (script : String) :
    Prog σ (Option GoErr) :=
  taskCall (.runSSH ip) (v.env.runSSH ip script)

/-- `VMExecShell` runs a simple shell command against some VMs. -/
def VMExecShell (v : Virter σ) (vmNames : List String) (sshPrivateKey : String)
    (shellStep : ProvisionShellStep) : Prog σ Unit := do
  let cfgIPs ← getSSHClientConfig v vmNames sshPrivateKey
  let r ← errgroupWait (cfgIPs.2.map (fun ip => runSSHCommand v ip shellStep.script))
  match r with
  | some e => throwE e
  | none => pure ()

def VMExecRsync (v : Virter σ) (copier : NetworkCopier) (vmNames : List String)
    (rsyncStep : ProvisionRsyncStep) : Prog σ Unit := do
  let files ← liftE (match v.env.glob rsyncStep.source with
    | .ok fs => .ok fs
    | .error e => .error (GoErr.wrap "failed to parse glob pattern" e))
  let ips ← getIPs v vmNames
  let r ← errgroupWait (ips.map (fun ip => taskCall (.rsyncCopy ip) (copier ip files rsyncStep.dest)))
  match r with
  | some e => throwE e
  | none => pure ()

/-- `VMExecDocker` runs a docker container against some VMs; the container
client fans out internally, so it is one external call over all addresses. -/
def VMExecDocker (v : Virter σ) (docker : DockerClient) (vmNames : List String)
    (_sshPrivateKey : String) : Prog σ Unit := do
  let ips ← getIPs v vmNames
  let r ← taskCall (.dockerRunEv ips) (docker ips)
  match r with
  | some e => throwE e
  | none => pure ()

/-! ## Concrete environments used as witnesses -/

/-- An all-success backend over a trivial state. -/
def okEnv : Env Unit where
  poolLookup := fun s _ => (.ok (), s)
  volLookup := fun s _ _ => (.ok (), s)
  volGetPath := fun s n => (.ok ("/var/lib/libvirt/images/" ++ n), s)
  volCreate := fun s _ x => (.ok x, s)
  volUpload := fun s _ => (.ok (), s)
  volDelete := fun s _ => (.ok (), s)
  domainLookup := fun s n => (.ok ⟨n, 7⟩, s)
  domainDefine := fun s x => (.ok ⟨x, 7⟩, s)
  domainCreate := fun s _ => (.ok (), s)
  domainIsActive := fun s _ => (.ok 1, s)
  domainIsPersistent := fun s _ => (.ok 1, s)
  domainDestroy := fun s _ => (.ok (), s)
  domainUndefine := fun s _ => (.ok (), s)
  listSnapshots := fun s _ => (.ok [], s)
  snapshotDelete := fun s _ => (.ok (), s)
  domainShutdown := fun s _ => (.ok (), s)
  lifecycleEvents := fun s => (.ok [⟨⟨"vm1", 7⟩, 5⟩], s)
  networkLookup := fun s _ => (.ok (), s)
  addDHCP := fun s _ i => (.ok ("10.0.0." ++ toString i), s)
  rmDHCP := fun s _ => (.ok (), s)
  getMAC := fun s _ => (.ok "52:54:00:00:00:07", s)
  findIPs := fun s _ _ => (.ok ["10.0.0.7"], s)
  render := fun tn _ => .ok tn
  parsePrivateKey := fun _ => .ok ()
  runSSH := fun _ _ => none
  glob := fun p => .ok [p]

def okVirter : Virter Unit := ⟨okEnv, "pool0", "net0"⟩

/-- Like `okEnv` but every domain reports inactive. -/
def inactiveEnv : Env Unit :=
  { okEnv with domainIsActive := fun s _ => (.ok 0, s) }

def inactiveVirter : Virter Unit := ⟨inactiveEnv, "pool0", "net0"⟩

/-- Like `okEnv` but domain and volume lookups report "not found". -/
def absentEnv : Env Unit :=
  { okEnv with
    domainLookup := fun s _ => (.error .errNoDomain, s)
    volLookup := fun s _ _ => (.error .errNoStorageVol, s) }

def absentVirter : Virter Unit := ⟨absentEnv, "pool0", "net0"⟩

/-! ## Helper lemmas -/

/-- The `select` wait succeeds exactly when some delivered event matches the
domain's identity with the "stopped" kind. -/
theorem waitStopped_any (d : Domain) (evs : List DomainEvent) :
    waitStopped d evs =
      (if evs.any (fun e => e.dom.id == d.id && e.event == domainEventStopped)
       then .ok ()
       else .error (.msg "timed out waiting for domain to stop")) := by
  induction evs with
  | nil => simp [waitStopped]
  | cons ev rest ih =>
    by_cases h : (ev.dom.id == d.id && ev.event == domainEventStopped) = true
    · simp [waitStopped, h]
    · simp only [waitStopped, h, if_false, List.any_cons, Bool.false_or, ih]
      simp [h]

/-! ## Claims -/

/-- Claim C3: for every VM whose domain is active, `VMCommit` called with
`gracefulShutdown = false` returns the "cannot commit a running VM" error and
performs no destructive action: the external-call trace consists of exactly
the domain lookup and the activity check, so no snapshot deletion, DHCP
removal, destroy/undefine or volume deletion happens before the error. -/
theorem claim3_commit_running_guard {σ : Type} (v : Virter σ)
    (notif : AfterNotifier) (vmName : String) (shutdownTimeout : Nat)
    (s s₁ s₂ : σ) (d : Domain) (n : Int)
    (h1 : v.env.domainLookup s vmName = (.ok d, s₁))
    (h2 : v.env.domainIsActive s₁ d = (.ok n, s₂))
    (h3 : n ≠ 0) :
    VMCommit v notif vmName false shutdownTimeout s [] =
      (.error (.msg "cannot commit a running VM"), s₂,
        [.domainLookup vmName, .domainIsActive d]) := by
  simp [VMCommit, prog_bind_def, Prog.bind, lvWrap, h1, h2, h3, throwE]

/-- Witness for C3 at a concrete active domain. -/
theorem claim3_witness :
    VMCommit okVirter () "vm1" false 9 () [] =
      (.error (.msg "cannot commit a running VM"), (),
        [.domainLookup "vm1", .domainIsActive ⟨"vm1", 7⟩]) :=
  claim3_commit_running_guard okVirter () "vm1" 9 () () () ⟨"vm1", 7⟩ 1
    rfl rfl (by decide)

/-- Claim C4: the shutdown monitor subscribes to the lifecycle event stream
strictly before the activity check (visible as the trace order), issues a
graceful shutdown request when the domain is active, and then waits on a
selection over the events delivered before the deadline: it succeeds exactly
when some event matches this domain's identity with the "stopped" kind
(events for other domains are skipped and the wait continues), and elapse of
the deadline with no matching delivery yields the timeout error. -/
theorem claim4_shutdown_monitor {σ : Type} (v : Virter σ)
    (notif : AfterNotifier) (shutdownTimeout : Nat) (d : Domain)
    (s s₁ s₂ s₃ : σ) (evs : List DomainEvent) (n : Int)
    (h1 : v.env.lifecycleEvents s = (.ok evs, s₁))
    (h2 : v.env.domainIsActive s₁ d = (.ok n, s₂))
    (h3 : n ≠ 0)
    (h4 : v.env.domainShutdown s₂ d = (.ok (), s₃)) :
    vmShutdown v notif shutdownTimeout d s [] =
      ((if evs.any (fun e => e.dom.id == d.id && e.event == domainEventStopped)
        then .ok ()
        else .error (.msg "timed out waiting for domain to stop")), s₃,
        [.lifecycleEvents, .domainIsActive d, .domainShutdown d, .afterTimer]) := by
  simp [vmShutdown, prog_bind_def, Prog.bind, lvWrap, logOnly, liftE, h1, h2, h3, h4,
    waitStopped_any]

/-- Witness for C4: with one matching "stopped" event delivered, the wait
succeeds after subscribe, check, shutdown request and timer start. -/
theorem claim4_witness :
    vmShutdown okVirter () 30 ⟨"vm1", 7⟩ () [] =
      (.ok (), (),
        [.lifecycleEvents, .domainIsActive ⟨"vm1", 7⟩, .domainShutdown ⟨"vm1", 7⟩,
         .afterTimer]) := by
  have h := claim4_shutdown_monitor okVirter () 30 ⟨"vm1", 7⟩ () () () ()
    [⟨⟨"vm1", 7⟩, 5⟩] 1 rfl rfl (by decide) rfl
  simpa using h

/-- Claim C9: when the domain lookup reports "no domain", `VMCommit` fails
with the wrapped lookup error for either value of the graceful-shutdown flag,
and its trace is just the lookup: no teardown step runs.  By contrast the
shared teardown routine `vmRmExceptBoot` treats the same answer as "already
absent" and continues to the volume steps, succeeding when they are also
absent. -/
theorem claim9_commit_missing_domain {σ : Type} (v : Virter σ)
    (vmName : String) (s s₁ : σ)
    (h1 : v.env.domainLookup s vmName = (.error .errNoDomain, s₁)) :
    (∀ (notif : AfterNotifier) (shutdown : Bool) (shutdownTimeout : Nat),
      VMCommit v notif vmName shutdown shutdownTimeout s [] =
        (.error (.wrap "could not get domain" (.lv .errNoDomain)), s₁,
          [.domainLookup vmName])) ∧
    (∀ (sp : String) (s₂ s₃ : σ),
      v.env.volLookup s₁ sp (scratchVolumeName vmName) = (.error .errNoStorageVol, s₂) →
      v.env.volLookup s₂ sp (ciDataVolumeName vmName) = (.error .errNoStorageVol, s₃) →
      vmRmExceptBoot v sp vmName s [] =
        (.ok (), s₃,
          [.domainLookup vmName, .volLookup (scratchVolumeName vmName),
           .volLookup (ciDataVolumeName vmName)])) := by
  constructor
  · intro notif shutdown shutdownTimeout
    simp [VMCommit, prog_bind_def, Prog.bind, lvWrap, h1]
  · intro sp s₂ s₃ h2 h3
    simp [vmRmExceptBoot, rmVolume, prog_bind_def, Prog.bind, lvCall, lvWrap,
      hasErrorCode, h1, h2, h3, Prog.pure, prog_pure_def]

/-- Witness for C9 with an absent domain and absent volumes. -/
theorem claim9_witness :
    VMCommit absentVirter () "vm1" true 9 () [] =
      (.error (.wrap "could not get domain" (.lv .errNoDomain)), (),
        [.domainLookup "vm1"]) ∧
    vmRmExceptBoot absentVirter "pool0" "vm1" () [] =
      (.ok (), (),
        [.domainLookup "vm1", .volLookup (scratchVolumeName "vm1"),
         .volLookup (ciDataVolumeName "vm1")]) := by
  have h := claim9_commit_missing_domain absentVirter "vm1" () () rfl
  exact ⟨h.1 () true 9, h.2 "pool0" () () rfl rfl⟩

/-- Claim C10: when the domain is already inactive at the post-subscription
activity check, the graceful-shutdown wait returns success immediately for
every deadline value: no shutdown request is issued, no lifecycle event is
consumed, and no timeout error can be returned. -/
theorem claim10_shutdown_inactive {σ : Type} (v : Virter σ) (d : Domain)
    (s s₁ s₂ : σ) (evs : List DomainEvent)
    (h1 : v.env.lifecycleEvents s = (.ok evs, s₁))
    (h2 : v.env.domainIsActive s₁ d = (.ok 0, s₂)) :
    ∀ (notif : AfterNotifier) (shutdownTimeout : Nat),
      vmShutdown v notif shutdownTimeout d s [] =
        (.ok (), s₂, [.lifecycleEvents, .domainIsActive d, .afterTimer]) := by
  intro notif shutdownTimeout
  simp [vmShutdown, prog_bind_def, Prog.bind, lvWrap, logOnly, liftE, h1, h2,
    Prog.pure, prog_pure_def]

/-- Witness for C10 at an inactive domain and an arbitrary deadline. -/
theorem claim10_witness :
    vmShutdown inactiveVirter () 1234 ⟨"vm1", 7⟩ () [] =
      (.ok (), (), [.lifecycleEvents, .domainIsActive ⟨"vm1", 7⟩, .afterTimer]) :=
  claim10_shutdown_inactive inactiveVirter ⟨"vm1", 7⟩ () () ()
    [⟨⟨"vm1", 7⟩, 5⟩] rfl rfl () 1234

/-! ## Event-kind predicates for the ordering claims -/

def isDefineEv : Ev → Bool
  | .domainDefine _ => true
  | _ => false

def isDHCPEv : Ev → Bool
  | .addDHCP _ _ => true
  | _ => false

def isCreateEv : Ev → Bool
  | .domainCreate _ => true
  | _ => false

/-- Claim C1: in every execution of `VMRun` that reaches the domain-start
step, the backend calls occur in the strict order domain-define, then DHCP
reservation add for the MAC derived from the VM ID, then domain-start; each
of the three occurs exactly once in the whole run, so the DHCP add is never
issued before define nor after start. -/
theorem claim1_define_dhcp_start {σ : Type} (v : Virter σ) (g : ISOGenerator)
    (waiter : PortWaiter) (cfg : VMConfig) (waitSSH : Bool) (s : σ)
    (h : (VMRun v g waiter cfg waitSSH s []).2.2.any isCreateEv = true) :
    ∃ t1 xml d t4,
      (VMRun v g waiter cfg waitSSH s []).2.2 =
        t1 ++ [Ev.domainDefine xml] ++ [Ev.addDHCP (qemuMAC cfg.vmID) cfg.vmID]
          ++ [Ev.domainCreate d] ++ t4 ∧
      (VMRun v g waiter cfg waitSSH s []).2.2.countP isDefineEv = 1 ∧
      (VMRun v g waiter cfg waitSSH s []).2.2.countP isDHCPEv = 1 ∧
      (VMRun v g waiter cfg waitSSH s []).2.2.countP isCreateEv = 1 := by
  simp only [VMRun, lookupPool, createVMVolume, createCIData, createScratchVolume,
    createVM, waitPortCall, metaData, userData, ciDataVolumeXML, vmVolumeXML,
    scratchVolumeXML, vmXML, prog_bind_def, prog_pure_def, Prog.bind, Prog.pure,
    lvWrap, lvCall, goCall, liftE, throwE, List.nil_append] at h ⊢
  rcases hp : v.env.poolLookup s v.storagePoolName with ⟨rp, s1⟩
  simp only [hp] at h ⊢
  cases rp with
  | error e => simp [isCreateEv] at h
  | ok _ =>
  rcases hvl : v.env.volLookup s1 v.storagePoolName cfg.imageName with ⟨rvl, s2⟩
  simp only [hvl] at h ⊢
  cases rvl with
  | error e => simp [isCreateEv] at h
  | ok _ =>
  rcases hgp : v.env.volGetPath s2 cfg.imageName with ⟨rgp, s3⟩
  simp only [hgp] at h ⊢
  cases rgp with
  | error e => simp [isCreateEv] at h
  | ok bp =>
  cases hr1 : v.env.render templateVMVolume (.vmVolumeBag cfg.vmName bp) with
  | error e => simp only [hr1] at h ⊢; simp [isCreateEv] at h
  | ok xmlBoot =>
  simp only [hr1] at h ⊢
  rcases hvc1 : v.env.volCreate s3 v.storagePoolName xmlBoot with ⟨rvc1, s4⟩
  simp only [hvc1] at h ⊢
  cases rvc1 with
  | error e => simp [isCreateEv] at h
  | ok _ =>
  cases hr2 : v.env.render templateMetaData (.metaBag cfg.vmName) with
  | error e => simp only [hr2] at h ⊢; simp [isCreateEv] at h
  | ok md =>
  simp only [hr2] at h ⊢
  cases hr3 : v.env.render templateUserData (.userBag cfg.vmName cfg.sshPublicKeys) with
  | error e => simp only [hr3] at h ⊢; simp [isCreateEv] at h
  | ok ud =>
  simp only [hr3] at h ⊢
  cases hg : g [("meta-data", md), ("user-data", ud)] with
  | error e => simp only [hg] at h ⊢; simp [isCreateEv] at h
  | ok blob =>
  simp only [hg] at h ⊢
  cases hr4 : v.env.render templateCIData (.ciVolumeBag (ciDataVolumeName cfg.vmName)) with
  | error e => simp only [hr4] at h ⊢; simp [isCreateEv] at h
  | ok xmlCi =>
  simp only [hr4] at h ⊢
  rcases hvc2 : v.env.volCreate s4 v.storagePoolName xmlCi with ⟨rvc2, s5⟩
  simp only [hvc2] at h ⊢
  cases rvc2 with
  | error e => simp [isCreateEv] at h
  | ok sv =>
  rcases hup : v.env.volUpload s5 sv with ⟨rup, s6⟩
  simp only [hup] at h ⊢
  cases rup with
  | error e => simp [isCreateEv] at h
  | ok _ =>
  cases hr5 : v.env.render templateScratchVolume
      (.scratchVolumeBag (scratchVolumeName cfg.vmName)) with
  | error e => simp only [hr5] at h ⊢; simp [isCreateEv] at h
  | ok xmlScr =>
  simp only [hr5] at h ⊢
  rcases hvc3 : v.env.volCreate s6 v.storagePoolName xmlScr with ⟨rvc3, s7⟩
  simp only [hvc3] at h ⊢
  cases rvc3 with
  | error e => simp [isCreateEv] at h
  | ok _ =>
  cases hr6 : v.env.render templateVM
      (.vmBag v.storagePoolName cfg.vmName (qemuMAC cfg.vmID) cfg.memoryKiB cfg.vcpus) with
  | error e => simp only [hr6] at h ⊢; simp [isCreateEv] at h
  | ok xmlVM =>
  simp only [hr6] at h ⊢
  rcases hdd : v.env.domainDefine s7 xmlVM with ⟨rdd, s8⟩
  simp only [hdd] at h ⊢
  cases rdd with
  | error e => simp [isCreateEv] at h
  | ok d =>
  rcases hdh : v.env.addDHCP s8 (qemuMAC cfg.vmID) cfg.vmID with ⟨rdh, s9⟩
  simp only [hdh] at h ⊢
  cases rdh with
  | error e => simp [isCreateEv] at h
  | ok ip =>
  rcases hdc : v.env.domainCreate s9 d with ⟨rdc, s10⟩
  simp only [hdc] at h ⊢
  cases rdc with
  | error e =>
    refine ⟨[.poolLookup v.storagePoolName, .volLookup cfg.imageName,
      .volGetPath cfg.imageName, .volCreate xmlBoot, .volCreate xmlCi,
      .volUpload sv, .volCreate xmlScr], xmlVM, d, [], ?_⟩
    simp [List.countP_cons, isDefineEv, isDHCPEv, isCreateEv, Prog.pure, waitPortCall]
  | ok _ =>
  cases waitSSH with
  | false =>
    refine ⟨[.poolLookup v.storagePoolName, .volLookup cfg.imageName,
      .volGetPath cfg.imageName, .volCreate xmlBoot, .volCreate xmlCi,
      .volUpload sv, .volCreate xmlScr], xmlVM, d, [], ?_⟩
    simp [List.countP_cons, isDefineEv, isDHCPEv, isCreateEv, Prog.pure, waitPortCall]
  | true =>
    refine ⟨[.poolLookup v.storagePoolName, .volLookup cfg.imageName,
      .volGetPath cfg.imageName, .volCreate xmlBoot, .volCreate xmlCi,
      .volUpload sv, .volCreate xmlScr], xmlVM, d, [.waitPort ip], ?_⟩
    simp [List.countP_cons, isDefineEv, isDHCPEv, isCreateEv, Prog.pure, waitPortCall]

/-- Witness for C1 at a concrete all-success environment. -/
theorem claim1_witness :
    (VMRun okVirter (fun _ => .ok "iso") (fun _ _ => none)
      ⟨"base", "vm1", 7, 1024, 2, []⟩ true () []).2.2.any isCreateEv = true ∧
    ∃ t1 xml d t4,
      (VMRun okVirter (fun _ => .ok "iso") (fun _ _ => none)
        ⟨"base", "vm1", 7, 1024, 2, []⟩ true () []).2.2 =
        t1 ++ [Ev.domainDefine xml] ++ [Ev.addDHCP (qemuMAC 7) 7]
          ++ [Ev.domainCreate d] ++ t4 ∧
      (VMRun okVirter (fun _ => .ok "iso") (fun _ _ => none)
        ⟨"base", "vm1", 7, 1024, 2, []⟩ true () []).2.2.countP isDefineEv = 1 ∧
      (VMRun okVirter (fun _ => .ok "iso") (fun _ _ => none)
        ⟨"base", "vm1", 7, 1024, 2, []⟩ true () []).2.2.countP isDHCPEv = 1 ∧
      (VMRun okVirter (fun _ => .ok "iso") (fun _ _ => none)
        ⟨"base", "vm1", 7, 1024, 2, []⟩ true () []).2.2.countP isCreateEv = 1 :=
  ⟨by decide,
   claim1_define_dhcp_start okVirter (fun _ => .ok "iso") (fun _ _ => none)
     ⟨"base", "vm1", 7, 1024, 2, []⟩ true () (by decide)⟩

/-! ## A faithful backend state model

For the idempotence and frame claims the environment is instantiated with an
explicit resource state: which pools, domains, snapshots, volumes and DHCP
entries exist.  Lookups answer "not found" exactly when the resource is
absent, and destructive calls remove it. -/

/-- A domain as stored by the backend. -/
structure WDom where
  name : String
  id : Int
  active : Bool
  persistent : Bool
  mac : String
deriving DecidableEq, Repr

/-- The backend's enumerable resource state. -/
structure World where
  pools : List String
  domains : List WDom
  snapshots : List Snap
  vols : List String
  dhcp : List (String × String)
deriving DecidableEq, Repr

/-- Look a domain up by name. -/
def wfind (w : World) (n : String) : Option WDom :=
  w.domains.find? (fun d => d.name == n)

/-- Stopping a persistent domain leaves it defined but inactive. -/
def wSetActiveFalse (w : World) (n : String) : World :=
  { w with domains := w.domains.map fun x => if x.name == n then { x with active := false } else x }

/-- Undefining a still-running domain makes it transient. -/
def wSetPersistentFalse (w : World) (n : String) : World :=
  { w with domains := w.domains.map fun x => if x.name == n then { x with persistent := false } else x }

/-- Removing a domain from the backend. -/
def wRemoveDomain (w : World) (n : String) : World :=
  { w with domains := w.domains.filter fun x => x.name != n }

def wPoolLookup (w : World) (n : String) : Except LVErr Unit × World :=
  (if n ∈ w.pools then .ok () else .error (.otherErr "no pool"), w)

def wVolLookup (w : World) (n : String) : Except LVErr Unit × World :=
  (if n ∈ w.vols then .ok () else .error .errNoStorageVol, w)

def wVolDelete (w : World) (n : String) : Except LVErr Unit × World :=
  if n ∈ w.vols then (.ok (), { w with vols := w.vols.filter (fun x => x != n) })
  else (.error .errNoStorageVol, w)

def wDomainLookup (w : World) (n : String) : Except LVErr Domain × World :=
  match wfind w n with
  | some d => (.ok ⟨d.name, d.id⟩, w)
  | none => (.error .errNoDomain, w)

def wDomainIsActive (w : World) (d : Domain) : Except LVErr Int × World :=
  match wfind w d.name with
  | some wd => (.ok (if wd.active then 1 else 0), w)
  | none => (.error .errNoDomain, w)

def wDomainIsPersistent (w : World) (d : Domain) : Except LVErr Int × World :=
  match wfind w d.name with
  | some wd => (.ok (if wd.persistent then 1 else 0), w)
  | none => (.error .errNoDomain, w)

def wDomainDestroy (w : World) (d : Domain) : Except LVErr Unit × World :=
  match wfind w d.name with
  | some wd =>
    if wd.active then
      if wd.persistent then (.ok (), wSetActiveFalse w d.name)
      else (.ok (), wRemoveDomain w d.name)
    else (.error (.otherErr "domain is not running"), w)
  | none => (.error .errNoDomain, w)

def wDomainUndefine (w : World) (d : Domain) : Except LVErr Unit × World :=
  match wfind w d.name with
  | some wd =>
    if wd.persistent then
      if wd.active then (.ok (), wSetPersistentFalse w d.name)
      else (.ok (), wRemoveDomain w d.name)
    else (.error (.otherErr "domain is not persistent"), w)
  | none => (.error .errNoDomain, w)

def wListSnapshots (w : World) (d : Domain) : Except LVErr (List Snap) × World :=
  (.ok (w.snapshots.filter (fun sn => sn.dom == d.name)), w)

def wSnapshotDelete (w : World) (sn : Snap) : Except LVErr Unit × World :=
  (.ok (), { w with snapshots := w.snapshots.filter (fun x => x != sn) })

def wAddDHCP (w : World) (mac : String) (vmID : Nat) : Except GoErr String × World :=
  (.ok ("192.168.122." ++ toString vmID),
   { w with dhcp := (mac, "192.168.122." ++ toString vmID) :: w.dhcp })

def wRmDHCP (w : World) (d : Domain) : Except GoErr Unit × World :=
  match wfind w d.name with
  | some wd => (.ok (), { w with dhcp := w.dhcp.filter (fun p => p.1 != wd.mac) })
  | none => (.error (.msg "could not get domain for DHCP removal"), w)

def wGetMAC (w : World) (d : Domain) : Except GoErr String × World :=
  match wfind w d.name with
  | some wd => (.ok wd.mac, w)
  | none => (.error (.msg "could not get MAC of domain"), w)

def wFindIPs (w : World) (mac : String) : Except GoErr (List String) × World :=
  (.ok (w.dhcp.filterMap (fun p => if p.1 == mac then some p.2 else none)), w)

def worldEnv : Env World :=
  { poolLookup := wPoolLookup
    volLookup := fun w _sp n => wVolLookup w n
    volGetPath := fun w n => (.ok ("/var/lib/libvirt/images/" ++ n), w)
    volCreate := fun w _sp xml => (.ok xml, w)
    volUpload := fun w _v => (.ok (), w)
    volDelete := wVolDelete
    domainLookup := wDomainLookup
    domainDefine := fun w xml => (.ok ⟨xml, 1⟩, w)
    domainCreate := fun w _d => (.ok (), w)
    domainIsActive := wDomainIsActive
    domainIsPersistent := wDomainIsPersistent
    domainDestroy := wDomainDestroy
    domainUndefine := wDomainUndefine
    listSnapshots := wListSnapshots
    snapshotDelete := wSnapshotDelete
    domainShutdown := fun w _d => (.ok (), w)
    lifecycleEvents := fun w => (.ok [], w)
    networkLookup := fun w _n => (.ok (), w)
    addDHCP := wAddDHCP
    rmDHCP := wRmDHCP
    getMAC := wGetMAC
    findIPs := fun w _net mac => wFindIPs w mac
    render := fun tn _data => .ok tn
    parsePrivateKey := fun _k => .ok ()
    runSSH := fun _ip _script => none
    glob := fun p => .ok [p] }

/-- A `Virter` over the resource-state backend. -/
def vw (pn nn : String) : Virter World := ⟨worldEnv, pn, nn⟩

/-! ## Derived-name facts and world-run lemmas -/

theorem scratch_ne_self (n : String) : scratchVolumeName n ≠ n := by
  intro h
  have hl : (scratchVolumeName n).length = n.length := by rw [h]
  simp [scratchVolumeName, String.length_append] at hl
  exact absurd hl (by decide)

theorem ci_ne_self (n : String) : ciDataVolumeName n ≠ n := by
  intro h
  have hl : (ciDataVolumeName n).length = n.length := by rw [h]
  simp [ciDataVolumeName, String.length_append] at hl
  exact absurd hl (by decide)

theorem vw_poolLookup (pn nn : String) : (vw pn nn).env.poolLookup = wPoolLookup := rfl
theorem vw_volLookup (pn nn : String) :
    (vw pn nn).env.volLookup = fun w _sp n => wVolLookup w n := rfl
theorem vw_volDelete (pn nn : String) : (vw pn nn).env.volDelete = wVolDelete := rfl
theorem vw_domainLookup (pn nn : String) : (vw pn nn).env.domainLookup = wDomainLookup := rfl
theorem vw_domainIsActive (pn nn : String) :
    (vw pn nn).env.domainIsActive = wDomainIsActive := rfl
theorem vw_domainIsPersistent (pn nn : String) :
    (vw pn nn).env.domainIsPersistent = wDomainIsPersistent := rfl
theorem vw_domainDestroy (pn nn : String) : (vw pn nn).env.domainDestroy = wDomainDestroy := rfl
theorem vw_domainUndefine (pn nn : String) :
    (vw pn nn).env.domainUndefine = wDomainUndefine := rfl
theorem vw_listSnapshots (pn nn : String) : (vw pn nn).env.listSnapshots = wListSnapshots := rfl
theorem vw_snapshotDelete (pn nn : String) :
    (vw pn nn).env.snapshotDelete = wSnapshotDelete := rfl
theorem vw_rmDHCP (pn nn : String) : (vw pn nn).env.rmDHCP = wRmDHCP := rfl
theorem vw_pool (pn nn : String) : (vw pn nn).storagePoolName = pn := rfl

/-- The world state after deleting each snapshot in the given list. -/
def wSnapsRemove : List Snap → World → World
  | [], w => w
  | sn :: L, w => wSnapsRemove L { w with snapshots := w.snapshots.filter (fun x => x != sn) }

theorem wSnapsRemove_pools (L : List Snap) (w : World) :
    (wSnapsRemove L w).pools = w.pools := by
  induction L generalizing w with
  | nil => rfl
  | cons sn L ih => simp [wSnapsRemove, ih]

theorem wSnapsRemove_domains (L : List Snap) (w : World) :
    (wSnapsRemove L w).domains = w.domains := by
  induction L generalizing w with
  | nil => rfl
  | cons sn L ih => simp [wSnapsRemove, ih]

theorem wSnapsRemove_vols (L : List Snap) (w : World) :
    (wSnapsRemove L w).vols = w.vols := by
  induction L generalizing w with
  | nil => rfl
  | cons sn L ih => simp [wSnapsRemove, ih]

theorem wSnapsRemove_dhcp (L : List Snap) (w : World) :
    (wSnapsRemove L w).dhcp = w.dhcp := by
  induction L generalizing w with
  | nil => rfl
  | cons sn L ih => simp [wSnapsRemove, ih]

theorem mem_wSnapsRemove {x : Snap} (L : List Snap) (w : World)
    (h : x ∈ (wSnapsRemove L w).snapshots) : x ∈ w.snapshots ∧ x ∉ L := by
  induction L generalizing w with
  | nil => simpa [wSnapsRemove] using h
  | cons sn L ih =>
    rcases ih _ h with ⟨hmem, hnot⟩
    simp only [List.mem_filter, bne_iff_ne, ne_eq] at hmem
    exact ⟨hmem.1, by simp [hmem.2, hnot]⟩

theorem rmSnapshotsLoop_world (pn nn : String) (L : List Snap) (w : World)
    (t : EvTrace) :
    rmSnapshotsLoop (vw pn nn) L w t =
      (.ok (), wSnapsRemove L w, t ++ L.map Ev.snapshotDelete) := by
  induction L generalizing w t with
  | nil => simp [rmSnapshotsLoop, wSnapsRemove, Prog.pure]
  | cons sn L ih =>
    simp [rmSnapshotsLoop, prog_bind_def, Prog.bind, lvWrap, vw_snapshotDelete,
      wSnapshotDelete, ih, wSnapsRemove]

theorem rmVolume_world (pn nn sp n dbg : String) (w : World) (t : EvTrace) :
    rmVolume (vw pn nn) sp n dbg w t =
      (.ok (), { w with vols := w.vols.filter (fun x => x != n) },
       t ++ (if n ∈ w.vols then [.volLookup n, .volDelete n] else [.volLookup n])) := by
  by_cases h : n ∈ w.vols
  · simp [rmVolume, prog_bind_def, Prog.bind, lvCall, lvWrap, vw_volLookup, vw_volDelete,
      wVolLookup, wVolDelete, h, hasErrorCode, orWrap, Prog.pure, prog_pure_def]
  · have hf : w.vols.filter (fun x => x != n) = w.vols :=
      List.filter_eq_self.mpr (fun a ha => by
        simp only [bne_iff_ne, ne_eq, decide_eq_true_eq]
        intro hc; exact h (hc ▸ ha))
    simp [rmVolume, prog_bind_def, Prog.bind, lvCall, lvWrap, vw_volLookup, vw_volDelete,
      wVolLookup, wVolDelete, h, hasErrorCode, orWrap, Prog.pure, prog_pure_def, hf]

theorem wfind_some_name {w : World} {n : String} {wd : WDom}
    (h : wfind w n = some wd) : wd.name = n := by
  have := List.find?_some h
  simpa using this

theorem wfind_wRemoveDomain (w : World) (n : String) :
    wfind (wRemoveDomain w n) n = none := by
  apply List.find?_eq_none.mpr
  intro x hx
  simp only [wRemoveDomain, List.mem_filter, bne_iff_ne, ne_eq,
    decide_eq_true_eq] at hx
  simp [hx.2]

theorem wfind_wSetActiveFalse (w : World) (n : String) {wd : WDom}
    (h : wfind w n = some wd) :
    wfind (wSetActiveFalse w n) n = some { wd with active := false } := by
  have hname := wfind_some_name h
  unfold wfind wSetActiveFalse at *
  rw [List.find?_map]
  have hcomp :
      ((fun d => d.name == n) ∘ fun x =>
        if x.name == n then { x with active := false } else x) =
      (fun d : WDom => d.name == n) := by
    funext x
    by_cases hx : x.name = n <;> simp [hx]
  rw [hcomp, h]
  simp [hname]

theorem wRemoveDomain_pools (w : World) (n : String) :
    (wRemoveDomain w n).pools = w.pools := rfl

theorem wSetActiveFalse_pools (w : World) (n : String) :
    (wSetActiveFalse w n).pools = w.pools := rfl

theorem wfind_wSnapsRemove (L : List Snap) (w : World) (n : String) :
    wfind (wSnapsRemove L w) n = wfind w n := by
  unfold wfind
  rw [wSnapsRemove_domains]

theorem find?_setActive {l : List WDom} {n : String} {wd : WDom}
    (h : l.find? (fun d => d.name == n) = some wd) :
    (l.map (fun x => if x.name == n then { x with active := false } else x)).find?
      (fun d => d.name == n) = some { wd with active := false } := by
  have hname : wd.name = n := by simpa using List.find?_some h
  rw [List.find?_map]
  have hcomp :
      ((fun d => d.name == n) ∘ fun x =>
        if x.name == n then { x with active := false } else x) =
      (fun d : WDom => d.name == n) := by
    funext x
    by_cases hx : x.name = n <;> simp [hx]
  rw [hcomp, h]
  simp [hname]

theorem comp_setActive_name (n : String) :
    ((fun d : WDom => d.name == n) ∘ fun x =>
      if x.name = n then { x with active := false } else x) =
    fun d : WDom => d.name == n := by
  funext x
  by_cases hx : x.name = n <;> simp [hx]

theorem vmRmExceptBoot_world (pn nn sp name : String) (w : World) (t : EvTrace) :
    (vmRmExceptBoot (vw pn nn) sp name w t).1 = .ok () ∧
    (vmRmExceptBoot (vw pn nn) sp name w t).2.1.pools = w.pools ∧
    (vmRmExceptBoot (vw pn nn) sp name w t).2.1.vols =
      (w.vols.filter (fun x => x != scratchVolumeName name)).filter
        (fun x => x != ciDataVolumeName name) := by
  rcases hl : wfind w name with _ | wd
  · simp [vmRmExceptBoot, prog_bind_def, Prog.bind, lvCall, vw_domainLookup,
      wDomainLookup, hl, hasErrorCode, Prog.pure, prog_pure_def, rmVolume_world]
  · have hname := wfind_some_name hl
    subst hname
    have hl' : w.domains.find? (fun d => d.name == wd.name) = some wd := hl
    cases hact : wd.active <;> cases hper : wd.persistent <;>
      simp [vmRmExceptBoot, rmSnapshots, prog_bind_def, Prog.bind, lvCall, lvWrap,
        goCall, vw_domainLookup, vw_listSnapshots, vw_domainIsActive,
        vw_domainIsPersistent, vw_rmDHCP, vw_domainDestroy, vw_domainUndefine,
        wDomainLookup, wListSnapshots, wDomainIsActive, wDomainIsPersistent,
        wRmDHCP, wDomainDestroy, wDomainUndefine, wfind, wSnapsRemove_domains,
        wSetActiveFalse, wRemoveDomain, hl', hact, hper, comp_setActive_name,
        hasErrorCode, orWrap, Prog.pure, prog_pure_def, rmSnapshotsLoop_world,
        rmVolume_world, wSnapsRemove_pools, wSnapsRemove_vols]

theorem vmRm_world (pn nn name : String) (w : World) (t : EvTrace)
    (hpool : pn ∈ w.pools) :
    (VMRm (vw pn nn) name w t).1 = .ok () ∧
    (VMRm (vw pn nn) name w t).2.1.pools = w.pools ∧
    name ∉ (VMRm (vw pn nn) name w t).2.1.vols := by
  have hb := vmRmExceptBoot_world pn nn pn name w (t ++ [Ev.poolLookup pn])
  rcases heq : vmRmExceptBoot (vw pn nn) pn name w (t ++ [Ev.poolLookup pn]) with
    ⟨r1, w1, t1⟩
  rw [heq] at hb
  obtain ⟨hr1, hp1, hv1⟩ := hb
  simp only at hr1 hp1 hv1
  subst hr1
  simp [VMRm, lookupPool, prog_bind_def, Prog.bind, lvWrap, vw_poolLookup, vw_pool,
    wPoolLookup, hpool, Prog.pure, prog_pure_def, heq, rmVolume_world, hp1]

/-- Claim C2: Rm teardown is idempotent.  First, a "not found" answer from a
volume lookup makes that deletion step succeed without issuing a delete.
Second, a "not found" answer from the domain lookup skips the whole domain
teardown and continues directly with the volume steps.  Consequently, over
the explicit resource-state backend, `VMRm` succeeds on any state whose
storage pool exists, and calling it again on the resulting state (where the
domain and volumes are gone) again produces no error. -/
theorem claim2_rm_idempotent :
    (∀ (σ : Type) (v : Virter σ) (sp n dbg : String) (s s' : σ) (t : EvTrace),
      v.env.volLookup s sp n = (.error .errNoStorageVol, s') →
      rmVolume v sp n dbg s t = (.ok (), s', t ++ [.volLookup n])) ∧
    (∀ (σ : Type) (v : Virter σ) (sp n : String) (s s₁ : σ) (t : EvTrace),
      v.env.domainLookup s n = (.error .errNoDomain, s₁) →
      vmRmExceptBoot v sp n s t =
        Prog.bind (rmVolume v sp (scratchVolumeName n) "scratch")
          (fun _ => rmVolume v sp (ciDataVolumeName n) "cloud-init")
          s₁ (t ++ [.domainLookup n])) ∧
    (∀ (pn nn name : String) (w : World) (t t' : EvTrace),
      pn ∈ w.pools →
      (VMRm (vw pn nn) name w t).1 = .ok () ∧
      (VMRm (vw pn nn) name ((VMRm (vw pn nn) name w t).2.1) t').1 = .ok ()) := by
  refine ⟨?_, ?_, ?_⟩
  · intro σ v sp n dbg s s' t h
    simp [rmVolume, prog_bind_def, Prog.bind, lvCall, h, hasErrorCode,
      Prog.pure, prog_pure_def]
  · intro σ v sp n s s₁ t h
    simp [vmRmExceptBoot, prog_bind_def, Prog.bind, lvCall, h, hasErrorCode,
      Prog.pure, prog_pure_def]
  · intro pn nn name w t t' hpool
    have h1 := vmRm_world pn nn name w t hpool
    have hpool' : pn ∈ (VMRm (vw pn nn) name w t).2.1.pools := by
      rw [h1.2.1]; exact hpool
    exact ⟨h1.1, (vmRm_world pn nn name _ t' hpool').1⟩

/-- A concrete backend state with one VM's full resource set present. -/
def w0 : World :=
  { pools := ["pool0"]
    domains := [⟨"vm1", 7, true, true, "52:54:00:00:00:07"⟩]
    snapshots := [⟨"vm1", "snap1"⟩]
    vols := ["vm1", "vm1-scratch", "vm1-cidata", "base"]
    dhcp := [("52:54:00:00:00:07", "192.168.122.7")] }

/-- Witness for C2: each part applied at a concrete instance. -/
theorem claim2_witness :
    rmVolume absentVirter "pool0" "vol1" "boot" () [] =
      (.ok (), (), [.volLookup "vol1"]) ∧
    vmRmExceptBoot absentVirter "pool0" "vm1" () [] =
      Prog.bind (rmVolume absentVirter "pool0" (scratchVolumeName "vm1") "scratch")
        (fun _ => rmVolume absentVirter "pool0" (ciDataVolumeName "vm1") "cloud-init")
        () [.domainLookup "vm1"] ∧
    ((VMRm (vw "pool0" "net0") "vm1" w0 []).1 = .ok () ∧
      (VMRm (vw "pool0" "net0") "vm1"
        ((VMRm (vw "pool0" "net0") "vm1" w0 []).2.1) []).1 = .ok ()) :=
  ⟨claim2_rm_idempotent.1 Unit absentVirter "pool0" "vol1" "boot" () () [] rfl,
   claim2_rm_idempotent.2.1 Unit absentVirter "pool0" "vm1" () () [] rfl,
   claim2_rm_idempotent.2.2 "pool0" "net0" "vm1" w0 [] [] (by decide)⟩

theorem find?_filter_ne_name (l : List WDom) (n : String) :
    (l.filter (fun x => x.name != n)).find? (fun d => d.name == n) = none := by
  apply List.find?_eq_none.mpr
  intro x hx
  simp only [List.mem_filter, bne_iff_ne, ne_eq, decide_eq_true_eq] at hx
  simp [hx.2]

theorem self_ne_scratch (n : String) : n ≠ scratchVolumeName n :=
  fun h => scratch_ne_self n h.symm

theorem self_ne_ci (n : String) : n ≠ ciDataVolumeName n :=
  fun h => ci_ne_self n h.symm

/-- Claim C5: `VMCommit`'s teardown (here with the domain already stopped)
removes the domain together with its snapshots and DHCP entry, removes the
scratch and cloud-init volumes, and never deletes the boot volume: no
`volDelete` call for the VM name is issued and the volume named exactly the
VM name is still present afterwards exactly when it was before. -/
theorem claim5_commit_preserves_boot (pn nn name : String) (timeout : Nat)
    (w : World) (wd : WDom)
    (hpool : pn ∈ w.pools)
    (hfind : wfind w name = some wd)
    (hact : wd.active = false)
    (hper : wd.persistent = true) :
    (VMCommit (vw pn nn) () name false timeout w []).1 = .ok () ∧
    wfind (VMCommit (vw pn nn) () name false timeout w []).2.1 name = none ∧
    (∀ sn ∈ (VMCommit (vw pn nn) () name false timeout w []).2.1.snapshots,
      sn.dom ≠ name) ∧
    (∀ ip, (wd.mac, ip) ∉ (VMCommit (vw pn nn) () name false timeout w []).2.1.dhcp) ∧
    scratchVolumeName name ∉ (VMCommit (vw pn nn) () name false timeout w []).2.1.vols ∧
    ciDataVolumeName name ∉ (VMCommit (vw pn nn) () name false timeout w []).2.1.vols ∧
    (name ∈ (VMCommit (vw pn nn) () name false timeout w []).2.1.vols ↔
      name ∈ w.vols) ∧
    Ev.volDelete name ∉ (VMCommit (vw pn nn) () name false timeout w []).2.2 := by
  have hname := wfind_some_name hfind
  subst hname
  have hl' : w.domains.find? (fun d => d.name == wd.name) = some wd := hfind
  refine ⟨?_, ?_, ?_, ?_, ?_, ?_, ?_, ?_⟩ <;>
    simp [VMCommit, lookupPool, vmRmExceptBoot, rmSnapshots, prog_bind_def,
      Prog.bind, lvCall, lvWrap, goCall, vw_domainLookup, vw_domainIsActive,
      vw_domainIsPersistent, vw_listSnapshots, vw_rmDHCP, vw_domainUndefine,
      vw_domainDestroy, vw_poolLookup, vw_pool, vw_volLookup, vw_volDelete,
      wDomainLookup, wDomainIsActive, wDomainIsPersistent, wListSnapshots,
      wRmDHCP, wDomainUndefine, wPoolLookup, wfind, wRemoveDomain,
      wSnapsRemove_domains, wSnapsRemove_vols, wSnapsRemove_dhcp, hl', hact,
      hper, hpool, hasErrorCode, orWrap, Prog.pure, prog_pure_def,
      rmSnapshotsLoop_world, rmVolume_world, find?_filter_ne_name,
      scratch_ne_self, ci_ne_self, self_ne_scratch, self_ne_ci]
  · intro sn hsn hdom
    rcases mem_wSnapsRemove _ _ hsn with ⟨hmem, hnot⟩
    exact hnot (List.mem_filter.mpr ⟨hmem, by simp [hdom]⟩)
  · constructor
    · by_cases h : scratchVolumeName wd.name ∈ w.vols <;>
        simp [h, scratch_ne_self, self_ne_scratch]
    · by_cases h : ciDataVolumeName wd.name ∈ w.vols ∧
        ¬ciDataVolumeName wd.name = scratchVolumeName wd.name <;>
        simp [h, ci_ne_self, self_ne_ci]

/-- A backend state whose domain "vm1" is already stopped (and persistent). -/
def w5 : World :=
  { pools := ["pool0"]
    domains := [⟨"vm1", 7, false, true, "52:54:00:00:00:07"⟩]
    snapshots := [⟨"vm1", "snap1"⟩]
    vols := ["vm1", "vm1-scratch", "vm1-cidata", "base"]
    dhcp := [("52:54:00:00:00:07", "192.168.122.7")] }

/-- Witness for C5 at the concrete stopped VM. -/
theorem claim5_witness :
    (VMCommit (vw "pool0" "net0") () "vm1" false 9 w5 []).1 = .ok () ∧
    wfind (VMCommit (vw "pool0" "net0") () "vm1" false 9 w5 []).2.1 "vm1" = none ∧
    (∀ sn ∈ (VMCommit (vw "pool0" "net0") () "vm1" false 9 w5 []).2.1.snapshots,
      sn.dom ≠ "vm1") ∧
    (∀ ip, ("52:54:00:00:00:07", ip) ∉
      (VMCommit (vw "pool0" "net0") () "vm1" false 9 w5 []).2.1.dhcp) ∧
    scratchVolumeName "vm1" ∉
      (VMCommit (vw "pool0" "net0") () "vm1" false 9 w5 []).2.1.vols ∧
    ciDataVolumeName "vm1" ∉
      (VMCommit (vw "pool0" "net0") () "vm1" false 9 w5 []).2.1.vols ∧
    ("vm1" ∈ (VMCommit (vw "pool0" "net0") () "vm1" false 9 w5 []).2.1.vols ↔
      "vm1" ∈ w5.vols) ∧
    Ev.volDelete "vm1" ∉ (VMCommit (vw "pool0" "net0") () "vm1" false 9 w5 []).2.2 :=
  claim5_commit_preserves_boot "pool0" "net0" "vm1" 9 w5
    ⟨"vm1", 7, false, true, "52:54:00:00:00:07"⟩ (by decide) (by decide) rfl rfl

/-! ## Trace-content framework

`TraceOnly m p` says every event a program appends to its trace satisfies
`p`; it composes along `Prog.bind` and lets us bound which external calls a
routine can ever issue, over every environment. -/

def TraceOnly (m : Prog σ α) (p : Ev → Prop) : Prop :=
  ∀ s t e, e ∈ (m s t).2.2 → e ∈ t ∨ p e

theorem TraceOnly.bind {m : Prog σ α} {f : α → Prog σ β} {p : Ev → Prop}
    (hm : TraceOnly m p) (hf : ∀ a, TraceOnly (f a) p) :
    TraceOnly (Prog.bind m f) p := by
  intro s t e he
  unfold Prog.bind at he
  rcases hmt : m s t with ⟨r, s', t'⟩
  rw [hmt] at he
  cases r with
  | error e2 =>
    simp only at he
    exact hm s t e (by rw [hmt]; exact he)
  | ok a =>
    simp only at he
    rcases hf a s' t' e he with h | h
    · exact hm s t e (by rw [hmt]; exact h)
    · exact Or.inr h

theorem TraceOnly.mono {m : Prog σ α} {p q : Ev → Prop}
    (hm : TraceOnly m p) (hpq : ∀ e, p e → q e) : TraceOnly m q := by
  intro s t e he
  rcases hm s t e he with h | h
  · exact Or.inl h
  · exact Or.inr (hpq e h)

theorem traceOnly_lvCall (ev : Ev) (f : σ → Except LVErr α × σ) :
    TraceOnly (lvCall ev f) (fun e => e = ev) := by
  intro s t e he
  simp only [lvCall, List.mem_append, List.mem_singleton] at he
  exact he

theorem traceOnly_lvWrap (ev : Ev) (msgStr : String) (f : σ → Except LVErr α × σ) :
    TraceOnly (lvWrap ev msgStr f) (fun e => e = ev) := by
  intro s t e he
  simp only [lvWrap, List.mem_append, List.mem_singleton] at he
  exact he

theorem traceOnly_goCall (ev : Ev) (f : σ → Except GoErr α × σ) :
    TraceOnly (goCall ev f) (fun e => e = ev) := by
  intro s t e he
  simp only [goCall, List.mem_append, List.mem_singleton] at he
  exact he

theorem traceOnly_taskCall (ev : Ev) (r : Option GoErr) :
    TraceOnly (taskCall ev r : Prog σ (Option GoErr)) (fun e => e = ev) := by
  intro s t e he
  simp only [taskCall, List.mem_append, List.mem_singleton] at he
  exact he

theorem traceOnly_pure (a : α) (p : Ev → Prop) :
    TraceOnly (Prog.pure a : Prog σ α) p := by
  intro s t e he
  exact Or.inl he

theorem traceOnly_throwE (er : GoErr) (p : Ev → Prop) :
    TraceOnly (throwE er : Prog σ α) p := by
  intro s t e he
  exact Or.inl he

theorem traceOnly_liftE (r : Except GoErr α) (p : Ev → Prop) :
    TraceOnly (liftE r : Prog σ α) p := by
  intro s t e he
  cases r <;> exact Or.inl he

theorem traceOnly_orWrap (msgStr : String) (r : Except LVErr α) (p : Ev → Prop) :
    TraceOnly (orWrap msgStr r : Prog σ α) p := by
  intro s t e he
  cases r with
  | ok a => exact Or.inl he
  | error e2 => exact Or.inl he

theorem traceOnly_wrapRes {m : Prog σ α} {p : Ev → Prop} (msgStr : String)
    (hm : TraceOnly m p) : TraceOnly (wrapRes msgStr m) p := by
  intro s t e he
  unfold wrapRes at he
  rcases hmt : m s t with ⟨r, s', t'⟩
  rw [hmt] at he
  cases r <;> · simp only at he; exact hm s t e (by rw [hmt]; exact he)

theorem traceOnly_rmVolume (v : Virter σ) (sp n dbg : String) :
    TraceOnly (rmVolume v sp n dbg)
      (fun e => e = .volLookup n ∨ e = .volDelete n) := by
  unfold rmVolume
  simp only [prog_bind_def, prog_pure_def]
  apply TraceOnly.bind ((traceOnly_lvCall _ _).mono (by intro e he; exact Or.inl he))
  intro r
  by_cases h : hasErrorCode r LVErr.errNoStorageVol = false
  · simp only [h, if_true]
    apply TraceOnly.bind (traceOnly_orWrap _ _ _)
    intro _
    exact (traceOnly_lvWrap _ _ _).mono (by intro e he; exact Or.inr he)
  · simp only [h, if_false]
    exact traceOnly_pure _ _

theorem traceOnly_rmSnapshotsLoop (v : Virter σ) (L : List Snap) :
    TraceOnly (rmSnapshotsLoop v L) (fun e => ∃ sn, e = .snapshotDelete sn) := by
  induction L with
  | nil => exact traceOnly_pure _ _
  | cons sn L ih =>
    unfold rmSnapshotsLoop
    simp only [prog_bind_def]
    apply TraceOnly.bind ((traceOnly_lvWrap _ _ _).mono (by intro e he; exact ⟨sn, he⟩))
    intro _
    exact ih

theorem traceOnly_rmSnapshots (v : Virter σ) (d : Domain) :
    TraceOnly (rmSnapshots v d)
      (fun e => e = .listSnapshots d ∨ ∃ sn, e = .snapshotDelete sn) := by
  unfold rmSnapshots
  simp only [prog_bind_def]
  apply TraceOnly.bind ((traceOnly_lvWrap _ _ _).mono (by intro e he; exact Or.inl he))
  intro L
  exact (traceOnly_rmSnapshotsLoop v L).mono (by intro e he; exact Or.inr he)

/-- Which volume names `vmRmExceptBoot` may ever delete: only the derived
scratch and cloud-init names. -/
theorem traceOnly_vmRmExceptBoot (v : Virter σ) (sp n : String) :
    TraceOnly (vmRmExceptBoot v sp n)
      (fun e => ∀ m, e = Ev.volDelete m →
        m = scratchVolumeName n ∨ m = ciDataVolumeName n) := by
  have hvols : TraceOnly
      (Prog.bind (rmVolume v sp (scratchVolumeName n) "scratch")
        (fun _ => rmVolume v sp (ciDataVolumeName n) "cloud-init"))
      (fun e => ∀ m, e = Ev.volDelete m →
        m = scratchVolumeName n ∨ m = ciDataVolumeName n) := by
    apply TraceOnly.bind ((traceOnly_rmVolume v sp (scratchVolumeName n) _).mono ?_)
    swap
    · intro e he m hm
      rcases he with he | he <;> rw [he] at hm
      · exact absurd hm (by simp)
      · exact Or.inl (by injection hm.symm)
    intro _
    exact (traceOnly_rmVolume v sp (ciDataVolumeName n) _).mono (by
      intro e he m hm
      rcases he with he | he <;> rw [he] at hm
      · exact absurd hm (by simp)
      · exact Or.inr (by injection hm.symm))
  have hev : ∀ (ev : Ev), (∀ m, ev ≠ Ev.volDelete m) →
      ∀ (e : Ev), e = ev → ∀ m, e = Ev.volDelete m →
        m = scratchVolumeName n ∨ m = ciDataVolumeName n := by
    intro ev hne e he m hm
    rw [he] at hm
    exact absurd hm (hne m)
  unfold vmRmExceptBoot
  simp only [prog_bind_def, prog_pure_def]
  apply TraceOnly.bind ((traceOnly_lvCall _ _).mono (hev _ (by intro m; simp)))
  intro r
  by_cases h : hasErrorCode r LVErr.errNoDomain = false
  · simp only [h, if_true]
    apply TraceOnly.bind (traceOnly_orWrap _ _ _)
    intro d
    apply TraceOnly.bind ((traceOnly_rmSnapshots v d).mono ?_)
    swap
    · intro e he m hm
      rcases he with he | ⟨sn, he⟩ <;> rw [he] at hm <;> exact absurd hm (by simp)
    intro _
    apply TraceOnly.bind ((traceOnly_lvWrap _ _ _).mono (hev _ (by intro m; simp)))
    intro active
    apply TraceOnly.bind ((traceOnly_lvWrap _ _ _).mono (hev _ (by intro m; simp)))
    intro persistent
    apply TraceOnly.bind ((traceOnly_goCall _ _).mono (hev _ (by intro m; simp)))
    intro _
    by_cases ha : active ≠ 0
    · rw [if_pos ha]
      apply TraceOnly.bind ((traceOnly_lvWrap _ _ _).mono (hev _ (by intro m; simp)))
      intro _
      by_cases hq : persistent ≠ 0
      · rw [if_pos hq]
        apply TraceOnly.bind ((traceOnly_lvWrap _ _ _).mono (hev _ (by intro m; simp)))
        intro _
        exact hvols
      · rw [if_neg hq, prog_pure_bind]
        exact hvols
    · rw [if_neg ha, prog_pure_bind]
      by_cases hq : persistent ≠ 0
      · rw [if_pos hq]
        apply TraceOnly.bind ((traceOnly_lvWrap _ _ _).mono (hev _ (by intro m; simp)))
        intro _
        exact hvols
      · rw [if_neg hq, prog_pure_bind]
        exact hvols
  · simp only [h, if_false]
    rw [prog_pure_bind]
    exact hvols

/-- Claim C6: the shared teardown routine `vmRmExceptBoot` (the spec's "Rm
steps 1-3") never issues a delete call for the boot volume — every volume
delete it issues names the derived scratch or cloud-init volume, which differ
from the VM name — and the boot volume is still present in the backend
afterwards.  Its caller `VMRm` performs that deletion separately: after
`VMRm` the boot volume is gone. -/
theorem claim6_boot_deleted_by_caller :
    (∀ (σ : Type) (v : Virter σ) (sp n : String) (s : σ) (t : EvTrace) (m : String),
      Ev.volDelete m ∈ (vmRmExceptBoot v sp n s t).2.2 →
      Ev.volDelete m ∈ t ∨ m = scratchVolumeName n ∨ m = ciDataVolumeName n) ∧
    (∀ (σ : Type) (v : Virter σ) (sp n : String) (s : σ),
      Ev.volDelete n ∉ (vmRmExceptBoot v sp n s []).2.2) ∧
    (∀ (pn nn name : String) (w : World) (t : EvTrace),
      name ∈ w.vols →
      name ∈ (vmRmExceptBoot (vw pn nn) pn name w t).2.1.vols ∧
      (pn ∈ w.pools → name ∉ (VMRm (vw pn nn) name w t).2.1.vols)) := by
  refine ⟨?_, ?_, ?_⟩
  · intro σ v sp n s t m hm
    rcases traceOnly_vmRmExceptBoot v sp n s t _ hm with h | h
    · exact Or.inl h
    · exact Or.inr (h m rfl)
  · intro σ v sp n s hm
    rcases traceOnly_vmRmExceptBoot v sp n s [] _ hm with h | h
    · simp at h
    · rcases h n rfl with h' | h'
      · exact self_ne_scratch n h'
      · exact self_ne_ci n h'
  · intro pn nn name w t hv
    constructor
    · have h3 := (vmRmExceptBoot_world pn nn pn name w t).2.2
      rw [h3]
      simp [List.mem_filter, hv, self_ne_scratch, self_ne_ci]
    · intro hpool
      exact (vmRm_world pn nn name w t hpool).2.2

/-- Witness for C6 at the concrete full resource state. -/
theorem claim6_witness :
    Ev.volDelete "vm1" ∉ (vmRmExceptBoot (vw "pool0" "net0") "pool0" "vm1" w0 []).2.2 ∧
    "vm1" ∈ (vmRmExceptBoot (vw "pool0" "net0") "pool0" "vm1" w0 []).2.1.vols ∧
    "vm1" ∉ (VMRm (vw "pool0" "net0") "vm1" w0 []).2.1.vols :=
  ⟨claim6_boot_deleted_by_caller.2.1 World (vw "pool0" "net0") "pool0" "vm1" w0,
   (claim6_boot_deleted_by_caller.2.2 "pool0" "net0" "vm1" w0 [] (by decide)).1,
   (claim6_boot_deleted_by_caller.2.2 "pool0" "net0" "vm1" w0 [] (by decide)).2
     (by decide)⟩

/-! ## Remote-work events and the resolve phase -/

/-- Events that launch remote work on a target (shell session, file sync,
container execution). -/
def remoteEv : Ev → Bool
  | .runSSH _ => true
  | .rsyncCopy _ => true
  | .dockerRunEv _ => true
  | _ => false

theorem traceOnly_findVMIP (v : Virter σ) (net : String) (d : Domain) :
    TraceOnly (findVMIP v net d) (fun e => remoteEv e = false) := by
  unfold findVMIP
  simp only [prog_bind_def, prog_pure_def]
  apply TraceOnly.bind ((traceOnly_goCall _ _).mono (by intro e he; subst he; rfl))
  intro mac
  apply TraceOnly.bind ((traceOnly_goCall _ _).mono (by intro e he; subst he; rfl))
  intro ips
  cases ips with
  | nil => exact traceOnly_throwE _ _
  | cons ip rest => exact traceOnly_pure _ _

theorem traceOnly_getIPsLoop (v : Virter σ) (net : String) (names : List String) :
    TraceOnly (getIPsLoop v net names) (fun e => remoteEv e = false) := by
  induction names with
  | nil => exact traceOnly_pure _ _
  | cons nm rest ih =>
    unfold getIPsLoop
    simp only [prog_bind_def, prog_pure_def]
    apply TraceOnly.bind ((traceOnly_lvWrap _ _ _).mono (by intro e he; subst he; rfl))
    intro d
    apply TraceOnly.bind ((traceOnly_lvWrap _ _ _).mono (by intro e he; subst he; rfl))
    intro active
    by_cases h : active = 0
    · rw [if_pos h]
      exact traceOnly_throwE _ _
    · rw [if_neg h]
      apply TraceOnly.bind (traceOnly_wrapRes _ (traceOnly_findVMIP v net d))
      intro ip
      apply TraceOnly.bind ih
      intro rest'
      exact traceOnly_pure _ _

theorem traceOnly_getIPs (v : Virter σ) (names : List String) :
    TraceOnly (getIPs v names) (fun e => remoteEv e = false) := by
  unfold getIPs
  simp only [prog_bind_def]
  apply TraceOnly.bind ((traceOnly_lvWrap _ _ _).mono (by intro e he; subst he; rfl))
  intro _
  exact traceOnly_getIPsLoop v v.networkName names

/-- Claim C7: for each provisioning entry point (shell, file sync, container
exec) a failing resolve phase — any lookup failure or an inactive target —
aborts with an error before any remote work is launched on any target: the
run's trace contains no remote-work event.  The resolve loop rejects an
inactive target with exactly the "not running" usage error. -/
theorem claim7_resolve_fail_fast :
    (∀ (σ : Type) (v : Virter σ) (vmNames : List String) (key : String)
       (step : ProvisionShellStep) (s s' : σ) (er : GoErr) (t : EvTrace),
      getIPs v vmNames s [] = (.error er, s', t) →
      VMExecShell v vmNames key step s [] = (.error er, s', t) ∧
        ∀ ev ∈ t, remoteEv ev = false) ∧
    (∀ (σ : Type) (v : Virter σ) (docker : DockerClient) (vmNames : List String)
       (key : String) (s s' : σ) (er : GoErr) (t : EvTrace),
      getIPs v vmNames s [] = (.error er, s', t) →
      VMExecDocker v docker vmNames key s [] = (.error er, s', t) ∧
        ∀ ev ∈ t, remoteEv ev = false) ∧
    (∀ (σ : Type) (v : Virter σ) (copier : NetworkCopier) (vmNames : List String)
       (rstep : ProvisionRsyncStep) (s s' : σ) (er : GoErr) (t : EvTrace),
      getIPs v vmNames s [] = (.error er, s', t) →
      (∃ er', (VMExecRsync v copier vmNames rstep s []).1 = .error er') ∧
        ∀ ev ∈ (VMExecRsync v copier vmNames rstep s []).2.2, remoteEv ev = false) ∧
    (∀ (σ : Type) (v : Virter σ) (net nm : String) (rest : List String)
       (s s₁ s₂ : σ) (d : Domain) (t : EvTrace),
      v.env.domainLookup s nm = (.ok d, s₁) →
      v.env.domainIsActive s₁ d = (.ok 0, s₂) →
      getIPsLoop v net (nm :: rest) s t =
        (.error (.msg ("cannot exec against VM '" ++ nm ++ "' that is not running")),
         s₂, t ++ [.domainLookup nm, .domainIsActive d])) := by
  have hmem : ∀ (σ : Type) (v : Virter σ) (vmNames : List String) (s s' : σ)
      (er : GoErr) (t : EvTrace),
      getIPs v vmNames s [] = (.error er, s', t) →
      ∀ ev ∈ t, remoteEv ev = false := by
    intro σ v vmNames s s' er t h ev hev
    rcases traceOnly_getIPs v vmNames s [] ev (by rw [h]; exact hev) with h' | h'
    · simp at h'
    · exact h'
  refine ⟨?_, ?_, ?_, ?_⟩
  · intro σ v vmNames key step s s' er t h
    refine ⟨?_, hmem σ v vmNames s s' er t h⟩
    simp only [VMExecShell, getSSHClientConfig, prog_bind_def, Prog.bind, h]
  · intro σ v docker vmNames key s s' er t h
    refine ⟨?_, hmem σ v vmNames s s' er t h⟩
    simp only [VMExecDocker, prog_bind_def, Prog.bind, h]
  · intro σ v copier vmNames rstep s s' er t h
    cases hg : v.env.glob rstep.source with
    | error eg =>
      refine ⟨⟨.wrap "failed to parse glob pattern" eg, ?_⟩, ?_⟩ <;>
        simp [VMExecRsync, prog_bind_def, Prog.bind, liftE, hg]
    | ok files =>
      constructor
      · refine ⟨er, ?_⟩
        simp only [VMExecRsync, prog_bind_def, Prog.bind, liftE, hg, h]
      · intro ev hev
        apply hmem σ v vmNames s s' er t h ev
        simpa only [VMExecRsync, prog_bind_def, Prog.bind, liftE, hg, h] using hev
  · intro σ v net nm rest s s₁ s₂ d t h1 h2
    simp [getIPsLoop, prog_bind_def, Prog.bind, lvWrap, h1, h2, throwE]

/-- Witness for C7: one inactive target aborts the shell provisioning with
the "not running" usage error before any remote work. -/
theorem claim7_witness :
    (VMExecShell inactiveVirter ["vm1"] "key" ⟨"echo hi", []⟩ () [] =
      (.error (.msg "cannot exec against VM 'vm1' that is not running"), (),
       [.networkLookup "net0", .domainLookup "vm1", .domainIsActive ⟨"vm1", 7⟩]) ∧
     ∀ ev ∈ ([.networkLookup "net0", .domainLookup "vm1",
        .domainIsActive ⟨"vm1", 7⟩] : EvTrace), remoteEv ev = false) ∧
    getIPsLoop inactiveVirter "net0" ["vm1"] () [] =
      (.error (.msg "cannot exec against VM 'vm1' that is not running"), (),
       [.domainLookup "vm1", .domainIsActive ⟨"vm1", 7⟩]) :=
  ⟨claim7_resolve_fail_fast.1 Unit inactiveVirter ["vm1"] "key" ⟨"echo hi", []⟩
     () () _ _ rfl,
   by
    have h := claim7_resolve_fail_fast.2.2.2 Unit inactiveVirter "net0" "vm1" []
      () () () ⟨"vm1", 7⟩ [] rfl rfl
    simpa using h⟩

/-! ## The errgroup join phase -/

/-- The first error in the list of task results (in arrival order): what
`errgroup.Wait` reports. -/
def firstErr : List (Option GoErr) → Option GoErr
  | [] => none
  | some e :: _ => some e
  | none :: rest => firstErr rest

/-- Running a group of per-target atomic tasks records every target's event
— regardless of which tasks fail — and yields the first error. -/
theorem errgroupWait_map {σ : Type} (evf : String → Ev)
    (resf : String → Option GoErr) (ips : List String) (s : σ) (t : EvTrace) :
    errgroupWait (ips.map (fun ip => taskCall (evf ip) (resf ip))) s t =
      (.ok (firstErr (ips.map resf)), s, t ++ ips.map evf) := by
  induction ips generalizing t with
  | nil => simp [errgroupWait, Prog.pure, firstErr]
  | cons ip rest ih =>
    cases hr : resf ip <;>
      simp [errgroupWait, prog_bind_def, Prog.bind, taskCall, prog_pure_def,
        Prog.pure, ih, hr, firstErr]

/-- Claim C8: once the resolve phase has produced the target addresses, the
dispatch-and-join phase of shell provisioning and of file synchronization
runs one task per address, waits for every launched task unconditionally —
the trace records one remote-work event per target, in launch order, even
when an earlier task failed — and returns the first encountered error, never
cancelling or abandoning sibling tasks. -/
theorem claim8_join_waits_all :
    (∀ (σ : Type) (v : Virter σ) (vmNames : List String) (key : String)
       (step : ProvisionShellStep) (s s' : σ) (cfg : SSHClientConfig)
       (ips : List String) (t : EvTrace),
      getSSHClientConfig v vmNames key s [] = (.ok (cfg, ips), s', t) →
      VMExecShell v vmNames key step s [] =
        ((match firstErr (ips.map (fun ip => v.env.runSSH ip step.script)) with
          | some e => .error e
          | none => .ok ()), s', t ++ ips.map Ev.runSSH)) ∧
    (∀ (σ : Type) (v : Virter σ) (copier : NetworkCopier) (vmNames : List String)
       (rstep : ProvisionRsyncStep) (files : List String) (s s' : σ)
       (ips : List String) (t : EvTrace),
      v.env.glob rstep.source = .ok files →
      getIPs v vmNames s [] = (.ok ips, s', t) →
      VMExecRsync v copier vmNames rstep s [] =
        ((match firstErr (ips.map (fun ip => copier ip files rstep.dest)) with
          | some e => .error e
          | none => .ok ()), s', t ++ ips.map Ev.rsyncCopy)) := by
  constructor
  · intro σ v vmNames key step s s' cfg ips t h
    simp only [VMExecShell, runSSHCommand, prog_bind_def, Prog.bind, h,
      errgroupWait_map]
    cases hfe : firstErr (ips.map (fun ip => v.env.runSSH ip step.script)) <;>
      simp [hfe, throwE, Prog.pure, prog_pure_def]
  · intro σ v copier vmNames rstep files s s' ips t hg h
    simp only [VMExecRsync, prog_bind_def, Prog.bind, liftE, hg, h,
      errgroupWait_map]
    cases hfe : firstErr (ips.map (fun ip => copier ip files rstep.dest)) <;>
      simp [hfe, throwE, Prog.pure, prog_pure_def]

/-- A backend where each target resolves to its own address and the remote
command fails on the second target only. -/
def execEnv : Env Unit :=
  { okEnv with
    getMAC := fun s d => (.ok d.name, s)
    findIPs := fun s _net mac => (.ok ["ip-" ++ mac], s)
    runSSH := fun ip _script =>
      if ip = "ip-vm2" then some (.msg "exit status 1") else none }

def execVirter : Virter Unit := ⟨execEnv, "pool0", "net0"⟩

/-- Witness for C8: three targets, the second fails; the first error is
returned and all three remote sessions were still launched and awaited. -/
theorem claim8_witness :
    VMExecShell execVirter ["vm1", "vm2", "vm3"] "key" ⟨"true", []⟩ () [] =
      (.error (.msg "exit status 1"), (),
       ([.networkLookup "net0",
         .domainLookup "vm1", .domainIsActive ⟨"vm1", 7⟩,
         .getMACev ⟨"vm1", 7⟩, .findIPsEv "vm1",
         .domainLookup "vm2", .domainIsActive ⟨"vm2", 7⟩,
         .getMACev ⟨"vm2", 7⟩, .findIPsEv "vm2",
         .domainLookup "vm3", .domainIsActive ⟨"vm3", 7⟩,
         .getMACev ⟨"vm3", 7⟩, .findIPsEv "vm3"] : EvTrace)
        ++ [Ev.runSSH "ip-vm1", Ev.runSSH "ip-vm2", Ev.runSSH "ip-vm3"]) := by
  have h := claim8_join_waits_all.1 Unit execVirter ["vm1", "vm2", "vm3"] "key"
    ⟨"true", []⟩ () () ⟨"root"⟩ ["ip-vm1", "ip-vm2", "ip-vm3"]
    [.networkLookup "net0",
     .domainLookup "vm1", .domainIsActive ⟨"vm1", 7⟩,
     .getMACev ⟨"vm1", 7⟩, .findIPsEv "vm1",
     .domainLookup "vm2", .domainIsActive ⟨"vm2", 7⟩,
     .getMACev ⟨"vm2", 7⟩, .findIPsEv "vm2",
     .domainLookup "vm3", .domainIsActive ⟨"vm3", 7⟩,
     .getMACev ⟨"vm3", 7⟩, .findIPsEv "vm3"] rfl
  simpa using h
